import Mathlib

/-!
Shallow embedding of the Telegram-Kraken-Bot trading assistant
(`kraken_api.py`, `telegram_kraken_bot.py`, `utils.py`).

Modelling conventions used throughout this file:
* Python decimal amounts (floats and their string renderings) are modelled as
  exact rationals; `"{0:.8f}".format` is modelled as exact decimal rounding to
  8 fractional digits (tie behaviour of binary floats is not relied on by any
  theorem below).
* Python dicts that are only iterated are modelled as association lists in
  iteration order; remote responses are supplied as explicit inputs.
* Exceptions raised by the underlying `krakenex` request are modelled as an
  oracle from the attempt index to the attempt's outcome.
-/

namespace TelegramKrakenBot

/-- Python substring test `needle in haystack`, on character lists. -/
def charsPrefix : List Char → List Char → Bool
  | [], _ => true
  | _ :: _, [] => false
  | a :: as, b :: bs => a = b && charsPrefix as bs

/-- Python substring test `needle in haystack`, scanning every suffix. -/
def charsContains (needle : List Char) : List Char → Bool
  | [] => charsPrefix needle []
  | b :: bs => charsPrefix needle (b :: bs) || charsContains needle bs

/-- Python `needle in haystack` for strings. -/
def strContains (haystack needle : String) : Bool :=
  charsContains needle.data haystack.data

/-- ASCII upper-casing of one character (all strings upper-cased by the bot
are ASCII keywords and asset codes). -/
def pyUpperChar (c : Char) : Char :=
  if 97 ≤ c.toNat ∧ c.toNat ≤ 122 then Char.ofNat (c.toNat - 32) else c

/-- Python `s.upper()`. -/
def pyUpper (s : String) : String :=
  String.mk (s.data.map pyUpperChar)

/-- Python `s.startswith(pre)`. -/
def pyStartsWith (s pre : String) : Bool :=
  charsPrefix pre.data s.data

/-- Python `s.endswith(suf)`. -/
def pyEndsWith (s suf : String) : Bool :=
  charsPrefix suf.data.reverse s.data.reverse

/-- Python `s[:-n]` for `n ≤ len(s)`. -/
def pyDropRight (s : String) (n : ℕ) : String :=
  String.mk (s.data.take (s.data.length - n))

/-- Value of `"{0:.8f}".format(q)` read back as a number: `q` rounded to
8 fractional decimal digits. -/
def round8 (q : ℚ) : ℚ :=
  (round (q * 100000000) : ℚ) / 100000000

/-- Zero-pad a decimal digit string on the left to 8 characters. -/
def pad8 (k : ℕ) : String :=
  let s := toString k
  String.mk (List.replicate (8 - s.length) '0') ++ s

/-- `"{0:.8f}".format(q)`: sign taken from the value (Python keeps the minus
sign even when the rounded magnitude is zero, e.g. `-1e-9 ↦ "-0.00000000"`),
then the magnitude rounded to 8 fractional digits. -/
def format8 (q : ℚ) : String :=
  let n : ℤ := round (|q| * 100000000)
  (if q < 0 then "-" else "") ++ toString (n / 100000000).toNat ++ "." ++ pad8 (n % 100000000).toNat

/-! ### `kraken_api.Kraken.query` (src/kraken_api.py lines 19-67)

One underlying request attempt either returns a payload or raises an
exception with a type name and a message. -/

/-- Outcome of one `query_private` / `query_public` request attempt. -/
inductive AttemptResult (α : Type) where
  | ok (payload : α)
  | exn (exName exMsg : String)
deriving DecidableEq

/-- What `Kraken.query` hands back to its caller: the payload, or the
`{"error": [msg]}` dictionary. -/
inductive KrakenRes (α : Type) where
  | ok (payload : α)
  | err (msg : String)
deriving DecidableEq

/-- Error message built for the `"Incorrect padding"` fatal-immediate case. -/
def paddingErrMsg : String :=
  "Incorrect padding: please verify that your Kraken API keys are valid"

/-- Error message built for the `"Service:Unavailable"` fatal-immediate case. -/
def serviceErrMsg : String := "Service: Unavailable"

/-- The recursive calls of `Kraken.query` once the `retries` counter has been
set (so `retries` is an int `r`).  The attempt at index `idx` is issued; on a
fatal-immediate pattern the structured error is returned at once; otherwise,
with retrying enabled, the counter is decremented while positive and the
query re-issued, and with the counter at `0` the last failure is rendered as
`ex_name + ":" + str(ex)`.  Returns the result together with the number of
request attempts this call performed. -/
def queryGo (selfRetries : ℕ) (attempt : ℕ → AttemptResult α) :
    ℕ → ℕ → KrakenRes α × ℕ
  | idx, 0 =>
    match attempt idx with
    | .ok p => (.ok p, 1)
    | .exn exName exMsg =>
      if strContains exMsg "Incorrect padding" then (.err paddingErrMsg, 1)
      else if strContains exMsg "Service:Unavailable" then (.err serviceErrMsg, 1)
      else (.err (exName ++ ":" ++ exMsg), 1)
  | idx, r + 1 =>
    match attempt idx with
    | .ok p => (.ok p, 1)
    | .exn exName exMsg =>
      if strContains exMsg "Incorrect padding" then (.err paddingErrMsg, 1)
      else if strContains exMsg "Service:Unavailable" then (.err serviceErrMsg, 1)
      else if selfRetries ≠ 0 then
        let rec_ := queryGo selfRetries attempt (idx + 1) r
        (rec_.1, rec_.2 + 1)
      else (.err (exName ++ ":" ++ exMsg), 1)

/-- `Kraken.query(method, data, private)` with configured retry budget
`selfRetries` (`self._retries`) and the initial call's `retries=None`: on a
retryable failure with retrying enabled, `retries` is set to the full budget
and the query re-issued.  Returns the result and the total number of request
attempts. -/
def query (selfRetries : ℕ) (attempt : ℕ → AttemptResult α) : KrakenRes α × ℕ :=
  match attempt 0 with
  | .ok p => (.ok p, 1)
  | .exn exName exMsg =>
    if strContains exMsg "Incorrect padding" then (.err paddingErrMsg, 1)
    else if strContains exMsg "Service:Unavailable" then (.err serviceErrMsg, 1)
    else if selfRetries ≠ 0 then
      let rec_ := queryGo selfRetries attempt 1 selfRetries
      (rec_.1, rec_.2 + 1)
    else (.err (exName ++ ":" ++ exMsg), 1)

/-- An exception outcome that does not match either fatal-immediate pattern. -/
def retryableExn (a : AttemptResult α) : Prop :=
  ∃ exName exMsg, a = .exn exName exMsg ∧
    strContains exMsg "Incorrect padding" = false ∧
    strContains exMsg "Service:Unavailable" = false

/-- Message rendered for the error returned after the retry budget runs out:
`ex_name + ":" + str(ex)` of the last attempt. -/
def exnErr : AttemptResult α → String
  | .ok _ => ""
  | .exn exName exMsg => exName ++ ":" ++ exMsg

/-! ### `build_menu` (src/telegram_kraken_bot.py lines 946-954) -/

/-- The slicing loop `[buttons[i:i + n_cols] for i in range(0, len(buttons), n_cols)]`,
written with the list's length as structural fuel (each step consumes at least
one element whenever `n ≥ 1`; Python's `range` rejects a zero step, so the
fuel-exhausted row for `n = 0` is never relevant to the claims). -/
def chunkFuel (n : ℕ) : ℕ → List α → List (List α)
  | _, [] => []
  | 0, _ :: _ => []
  | fuel + 1, a :: l => (a :: l).take n :: chunkFuel n fuel ((a :: l).drop n)

/-- The row list `menu` before the header/footer edits. -/
def chunkRows (n_cols : ℕ) (buttons : List α) : List (List α) :=
  chunkFuel n_cols buttons.length buttons

/-- `build_menu(buttons, n_cols, header_buttons, footer_buttons)`.
`if header_buttons:` / `if footer_buttons:` are Python truthiness tests: the
row is inserted only when the argument is a non-empty list. -/
def build_menu (buttons : List α) (n_cols : ℕ)
    (header_buttons footer_buttons : Option (List α)) : List (List α) :=
  let menu := chunkRows n_cols buttons
  let menu2 :=
    match header_buttons with
    | some (h :: hs) => (h :: hs) :: menu
    | _ => menu
  match footer_buttons with
  | some (f :: fs) => menu2 ++ [f :: fs]
  | _ => menu2

/-- The rows contributed by a header/footer argument: one row when the
argument is truthy (a non-empty list), nothing otherwise. -/
def truthyRow : Option (List α) → List (List α)
  | some (h :: hs) => [h :: hs]
  | _ => []

/-! ### `order_state_check` (src/telegram_kraken_bot.py lines 990-1020)

A monitor tick issues `QueryOrders` for the tracked txid; the poll outcome is
the error list or the order's status (with its description string). -/

/-- Outcome of the `QueryOrders` poll of one monitor tick. -/
inductive PollRes where
  | err (msg : String)
  | ok (status : String) (descr : String)
deriving DecidableEq

/-- Observable effect of one `order_state_check` tick: whether
`job.schedule_removal()` ran, whether the "Trade executed" notification was
sent, and whether the poll error was forwarded (`config["send_error"]`). -/
structure TickEffect where
  removed : Bool
  executedNotified : Bool
  errorForwarded : Bool
deriving DecidableEq

/-- One tick of `order_state_check`. -/
def order_state_check (send_error : Bool) (r : PollRes) : TickEffect :=
  match r with
  | .err _ => ⟨false, false, send_error⟩
  | .ok status _ =>
    if status = "canceled" then ⟨true, false, false⟩
    else if status = "closed" then ⟨true, true, false⟩
    else ⟨false, false, false⟩

/-- A poll outcome on which the tick removes the job. -/
def isTerminal : PollRes → Bool
  | .err _ => false
  | .ok status _ => decide (status = "canceled") || decide (status = "closed")

/-- A poll outcome reporting the `closed` status. -/
def isClosedStatus : PollRes → Bool
  | .err _ => false
  | .ok status _ => decide (status = "closed")

/-- The repeating job: `order_state_check` runs on each scheduled tick until
`job.schedule_removal()`; the list gives the successive poll outcomes the
scheduler would feed the job. -/
def runMonitor (send_error : Bool) : List PollRes → List TickEffect
  | [] => []
  | r :: rs =>
    let e := order_state_check send_error r
    if e.removed then [e] else e :: runMonitor send_error rs

/-! ### `orders_close_all` (src/telegram_kraken_bot.py lines 684-716) -/

/-- Final reply of `orders_close_all`. -/
inductive CloseAllSummary where
  | closedList (xs : List String)   -- "Orders closed:" followed by the list
  | noneClosed                      -- "No orders closed"
  | noOpenOrders                    -- "No open orders"
deriving DecidableEq

/-- Observable result of `orders_close_all`. -/
structure CloseAllRes where
  attempted : List String
  closed : List String
  failedReported : List String   -- per-order "Order not closed" replies
  summary : CloseAllSummary
deriving DecidableEq

/-- The `for x in range(0, len(orders))` loop: every order id gets a
`CancelOrder` request; an error is shown per order and iteration continues,
a success appends the id to `closed_orders`. -/
def closeLoop (cancelErr : String → Option String) :
    List String → List String × List String × List String
  | [] => ([], [], [])
  | o :: rest =>
    let r := closeLoop cancelErr rest
    match cancelErr o with
    | some _ => (o :: r.1, r.2.1, o :: r.2.2)
    | none => (o :: r.1, o :: r.2.1, r.2.2)

/-- `orders_close_all` over the cached `orders` list; `cancelErr` gives the
`CancelOrder` error (if any) per transaction id. -/
def orders_close_all (orders : List String) (cancelErr : String → Option String) :
    CloseAllRes :=
  match orders with
  | [] => ⟨[], [], [], .noOpenOrders⟩
  | o :: rest =>
    let r := closeLoop cancelErr (o :: rest)
    ⟨r.1, r.2.1, r.2.2,
      match r.2.1 with | [] => .noneClosed | c :: cs => .closedList (c :: cs)⟩

/-! ### `trade_volume` and `trade_volume_asset`
(src/telegram_kraken_bot.py lines 447-495) -/

/-- The conversation steps these handlers can return. Only the constructors
the volume handlers use are modelled. -/
inductive WorkflowEnum where
  | TRADE_VOLUME
  | TRADE_CONFIRM
deriving DecidableEq

/-- Observable result of a volume-entry handler: the next step, the numeric
value of `chat_data["volume"]`, and whether the "Volume to low" error was
sent to the user (the unknown-minimum branch only writes a log line). -/
structure VolumeStepRes where
  next : WorkflowEnum
  volume : ℚ
  lowVolumeMsgSent : Bool
deriving DecidableEq

/-- `trade_volume(bot, update, chat_data)`: `text` is the numeric value of the
message (`,` already replaced by `.`); the stored volume is the 8-digit
rounding; with a configured minimum the volume is checked against it, without
one a warning is logged and the handler goes on to the confirmation. -/
def trade_volume (text : ℚ) (currency : String) (limits : String → Option ℚ) :
    VolumeStepRes :=
  let volume := round8 text
  match limits currency with
  | some m =>
    if volume < m then ⟨.TRADE_VOLUME, volume, true⟩
    else ⟨.TRADE_CONFIRM, volume, false⟩
  | none => ⟨.TRADE_CONFIRM, volume, false⟩

/-- `trade_volume_asset(bot, update, chat_data)`: the entered amount is
divided by `chat_data["price"]` before the same minimum check. -/
def trade_volume_asset (amount price : ℚ) (currency : String)
    (limits : String → Option ℚ) : VolumeStepRes :=
  let volume := round8 (amount / price)
  match limits currency with
  | some m =>
    if volume < m then ⟨.TRADE_VOLUME, volume, true⟩
    else ⟨.TRADE_CONFIRM, volume, false⟩
  | none => ⟨.TRADE_CONFIRM, volume, false⟩

/-! ### `trade_vol_all` (src/telegram_kraken_bot.py lines 361-443) -/

/-- One open order as read from `order["descr"]["order"].split(" ")`:
index 0 is the side, index 1 the volume, index 2 the pair text and index 5
the per-coin price. -/
structure OrderDesc where
  otype : String
  volume : ℚ
  pairWord : String
  price : ℚ
deriving DecidableEq

/-- The inner loop over `assets.items()` that finds the first asset whose
altname is a suffix of the order's pair word and strips it.  (When no asset
matches, Python would read an unbound `order_currency`; that case is
modelled as no match and is not relied on by any theorem.) -/
def findOrderCurrency (assets : List (String × String)) (pairWord : String) :
    Option String :=
  match assets.find? (fun a => pyEndsWith pairWord a.2) with
  | some a => some (pyDropRight pairWord a.2.data.length)
  | none => none

/-- BUY branch accumulator: `avail_buy_from_cur` minus the value of every
open buy order. -/
def availBuy (balanceTwo : ℚ) (orders : List OrderDesc) : ℚ :=
  orders.foldl
    (fun acc o => if o.otype = "buy" then acc - o.volume * o.price else acc)
    balanceTwo

/-- SELL branch accumulator: `available_volume` minus the volume of every
open sell order whose order currency contains `chat_data["currency"]`. -/
def availSell (balanceOne : ℚ) (currency : String)
    (assets : List (String × String)) (orders : List OrderDesc) : ℚ :=
  orders.foldl
    (fun acc o =>
      match findOrderCurrency assets o.pairWord with
      | some oc =>
        if strContains oc currency && o.otype = "sell" then acc - o.volume
        else acc
      | none => acc)
    balanceOne

/-- Inputs of one `trade_vol_all` run: the scratch fields it reads and the
two Kraken responses it fetches. -/
structure VolAllEnv where
  buysell : String
  currency : String
  price : ℚ
  one : String
  two : String
  assets : List (String × String)
  balanceErr : Option String
  balance : String → ℚ
  ordersErr : Option String
  openOrders : List OrderDesc

/-- Observable result of `trade_vol_all`. -/
inductive VolAllOutcome where
  | apiError                       -- handle_api_error fired, bare return
  | endZero                        -- "Available ... volume is 0", conversation ends
  | confirm (volumeStr : String)   -- trade_show_conf shown, TRADE_CONFIRM returned
  | fallthroughConfirm             -- side neither BUY nor SELL (unreachable from the workflow)
deriving DecidableEq

/-- The resolved all-available volume of the BUY branch
(`avail_buy_from_cur / float(chat_data["price"])`). -/
def volAllResolvedBuy (env : VolAllEnv) : ℚ :=
  availBuy (env.balance env.two) env.openOrders / env.price

/-- The resolved all-available volume of the SELL branch. -/
def volAllResolvedSell (env : VolAllEnv) : ℚ :=
  availSell (env.balance env.one) env.currency env.assets env.openOrders

/-- `trade_vol_all(bot, update, chat_data)`. -/
def trade_vol_all (env : VolAllEnv) : VolAllOutcome :=
  match env.balanceErr with
  | some _ => .apiError
  | none =>
    match env.ordersErr with
    | some _ => .apiError
    | none =>
      if pyUpper env.buysell = "BUY" then
        let volume := format8 (volAllResolvedBuy env)
        if volume = "0.00000000" then .endZero else .confirm volume
      else if pyUpper env.buysell = "SELL" then
        let volume := format8 (volAllResolvedSell env)
        if volume = "0.00000000" then .endZero else .confirm volume
      else .fallthroughConfirm

/-! ### `clear_chat_data`, `cancel` and `trade_sell_all_confirm`
(src/telegram_kraken_bot.py lines 177-261 and 915-931) -/

/-- The per-conversation scratch dictionary `chat_data` (its values are
strings in every field these claims touch). -/
def ChatData := List (String × String)

instance : DecidableEq ChatData := by
  unfold ChatData
  exact inferInstance

/-- `clear_chat_data(chat_data)`: `if chat_data:` is false for `None` (and
for an already-empty dict), so only a passed non-empty dict gets every key
deleted. -/
def clear_chat_data : Option ChatData → Option ChatData
  | none => none
  | some _ => some []

/-- `cancel(bot, update, chat_data=None)`: clears the passed scratch dict
(if any) and ends the conversation; the session's dict is only reachable
when the caller passed it. -/
def cancel (chat_data : Option ChatData) : Option ChatData :=
  clear_chat_data chat_data

/-- One balance entry of the `res_balance["result"].items()` iteration:
the internal asset key, the raw amount string and its numeric value. -/
structure BalanceEntry where
  key : String
  amountStr : String
  amount : ℚ
deriving DecidableEq

/-- Inputs of one `trade_sell_all_confirm` run: the asset/pair/limit tables
and the responses of the Kraken calls it makes. -/
structure SellAllEnv where
  assets : String → String            -- internal key ↦ altname
  pairs : String → String             -- altname ↦ pair code
  limits : String → Option ℚ          -- altname ↦ minimum order size
  check_trade : Bool
  openOrdersErr : Option String
  openOrders : List String            -- open order txids, iteration order
  cancelErr : String → Option String  -- CancelOrder error per txid
  balanceErr : Option String
  balance : List BalanceEntry
  addOrderErr : String → Option String  -- AddOrder error per pair code
  addOrderTxid : String → String        -- txid returned on AddOrder success

/-- How a `trade_sell_all_confirm` run ends. -/
inductive SellAllOutcome where
  | canceledNo    -- answer NO: cancel(bot, update)
  | apiError      -- handle_api_error fired and the handler returned
  | finished      -- "Created orders to sell all assets"
deriving DecidableEq

/-- Observable result of `trade_sell_all_confirm`: how it ended, which
cancels and which sells were attempted, which monitor jobs were registered,
and the session scratch dict afterwards. -/
structure SellAllRes where
  outcome : SellAllOutcome
  cancelsAttempted : List String
  sellsAttempted : List String     -- pair codes sent to AddOrder
  jobsRegistered : List String     -- txids given a monitor job
  scratch : ChatData
deriving DecidableEq

/-- The cancel loop over the open orders: each txid gets a `CancelOrder`
request, but `if handle_api_error(...): return` makes the first error leave
the handler.  Returns the attempted txids and whether an error aborted. -/
def sellAllCancelLoop (cancelErr : String → Option String) :
    List String → List String × Bool
  | [] => ([], false)
  | o :: rest =>
    match cancelErr o with
    | some _ => ([o], true)
    | none =>
      let r := sellAllCancelLoop cancelErr rest
      (o :: r.1, r.2)

/-- The sell loop over the balance: fiat keys (prefix `"Z"`) and zero
balances are skipped, an unknown minimum only logs a warning and continues,
a balance below the minimum messages and continues, otherwise `AddOrder` is
sent; an `AddOrder` error continues with the next asset, a success registers
a monitor job when `check_trade` is set.  Returns the pairs attempted and
the jobs registered. -/
def sellAllSellLoop (env : SellAllEnv) : List BalanceEntry → List String × List String
  | [] => ([], [])
  | b :: rest =>
    let r := sellAllSellLoop env rest
    if pyStartsWith b.key "Z" then r
    else if b.amountStr = "0.0000000000" then r
    else
      match env.limits (env.assets b.key) with
      | none => r
      | some m =>
        if b.amount < m then r
        else
          let pair := env.pairs (env.assets b.key)
          match env.addOrderErr pair with
          | some _ => (pair :: r.1, r.2)
          | none =>
            if env.check_trade then (pair :: r.1, env.addOrderTxid pair :: r.2)
            else (pair :: r.1, r.2)

/-- A balance entry for which the sell loop sends an `AddOrder` request:
non-fiat, non-zero, with a configured minimum the amount reaches. -/
def sellEligible (env : SellAllEnv) (b : BalanceEntry) : Bool :=
  !pyStartsWith b.key "Z" && !(b.amountStr = "0.0000000000" : Bool) &&
    (match env.limits (env.assets b.key) with
     | some m => decide (m ≤ b.amount)
     | none => false)

/-- `trade_sell_all_confirm(bot, update)`.  The handler's signature carries
no `chat_data` (its registration has no `pass_chat_data=True`), so the NO
answer runs `cancel(bot, update)`: `clear_chat_data(None)` and the session
scratch dict stays whatever it was. -/
def trade_sell_all_confirm (env : SellAllEnv) (answer : String)
    (scratch : ChatData) : SellAllRes :=
  if pyUpper answer = "NO" then
    ⟨.canceledNo, [], [], [], (cancel none).getD scratch⟩
  else
    match env.openOrdersErr with
    | some _ => ⟨.apiError, [], [], [], scratch⟩
    | none =>
      let c := sellAllCancelLoop env.cancelErr env.openOrders
      if c.2 then ⟨.apiError, c.1, [], [], scratch⟩
      else
        match env.balanceErr with
        | some _ => ⟨.apiError, c.1, [], [], scratch⟩
        | none =>
          let s := sellAllSellLoop env env.balance
          ⟨.finished, c.1, s.1, s.2, scratch⟩

/-! ## Helper lemmas -/

/-- Unfolding `format8` once the round of the scaled magnitude is known. -/
theorem format8_spec (q : ℚ) (v : ℤ) (hv : round (|q| * 100000000) = v) :
    format8 q = (if q < 0 then "-" else "") ++ toString (v / 100000000).toNat
      ++ "." ++ pad8 (v % 100000000).toNat := by
  simp only [format8]
  rw [hv]

/-- A negative value never formats to the plain zero string: its rendering
starts with the minus sign. -/
theorem format8_neg_ne (q : ℚ) (hq : q < 0) : format8 q ≠ "0.00000000" := by
  intro h
  simp only [format8, if_pos hq] at h
  have h2 := congrArg String.data h
  rw [String.data_append, String.data_append, String.data_append] at h2
  rw [show ("-" : String).data = ['-'] from rfl, List.singleton_append] at h2
  rw [show ("0.00000000" : String).data
      = '0' :: ['.', '0', '0', '0', '0', '0', '0', '0', '0'] from rfl] at h2
  injection h2 with h3 _
  exact absurd h3 (by decide)

/-- After the retry counter is set, a run of all-retryable failures uses up
the whole counter: `r + 1` attempts, ending with the last attempt's error. -/
theorem queryGo_all_retryable {α : Type} (R : ℕ) (hR : R ≠ 0)
    (attempt : ℕ → AttemptResult α) (h : ∀ i, retryableExn (attempt i)) :
    ∀ (r idx : ℕ), queryGo R attempt idx r
      = (.err (exnErr (attempt (idx + r))), r + 1) := by
  intro r
  induction r with
  | zero =>
    intro idx
    obtain ⟨n, m, he, h1, h2⟩ := h idx
    simp [queryGo, he, h1, h2, exnErr]
  | succ r ih =>
    intro idx
    obtain ⟨n, m, he, h1, h2⟩ := h idx
    have harith : idx + 1 + r = idx + (r + 1) := by omega
    simp [queryGo, he, h1, h2, hR, ih (idx + 1), harith, exnErr]

/-- Per-tick removal condition of the monitor job. -/
theorem order_state_check_removed (se : Bool) (r : PollRes) :
    (order_state_check se r).removed = isTerminal r := by
  cases r with
  | err m => simp [order_state_check, isTerminal]
  | ok s d =>
    by_cases h1 : s = "canceled"
    · simp [order_state_check, isTerminal, h1]
    · by_cases h2 : s = "closed" <;>
        simp [order_state_check, isTerminal, h1, h2]

/-- Per-tick notification condition of the monitor job. -/
theorem order_state_check_notified (se : Bool) (r : PollRes) :
    (order_state_check se r).executedNotified = isClosedStatus r := by
  cases r with
  | err m => simp [order_state_check, isClosedStatus]
  | ok s d =>
    by_cases h1 : s = "canceled"
    · subst h1
      simp [order_state_check, isClosedStatus]
    · by_cases h2 : s = "closed" <;>
        simp [order_state_check, isClosedStatus, h1, h2]

/-- The close-all loop attempts every order and collects the successes. -/
theorem closeLoop_spec (f : String → Option String) :
    ∀ l : List String,
      closeLoop f l = (l, l.filter (fun o => (f o).isNone),
        l.filter (fun o => (f o).isSome)) := by
  intro l
  induction l with
  | nil => simp [closeLoop]
  | cons o rest ih =>
    cases hf : f o <;> simp [closeLoop, ih, hf, List.filter_cons]

/-- Joining the slicing rows gives the button list back. -/
theorem chunkFuel_flatten {α : Type} (n : ℕ) (hn : 1 ≤ n) :
    ∀ (fuel : ℕ) (l : List α), l.length ≤ fuel →
      (chunkFuel n fuel l).flatten = l := by
  intro fuel
  induction fuel with
  | zero =>
    intro l hl
    have : l = [] := List.length_eq_zero.mp (Nat.le_zero.mp hl)
    subst this
    simp [chunkFuel]
  | succ f ih =>
    intro l hl
    cases l with
    | nil => simp [chunkFuel]
    | cons a t =>
      have hd : ((a :: t).drop n).length ≤ f := by
        rw [List.length_drop, List.length_cons]
        have hl2 : t.length + 1 ≤ f + 1 := by
          simpa using hl
        omega
      have step : chunkFuel n (f + 1) (a :: t)
          = (a :: t).take n :: chunkFuel n f ((a :: t).drop n) := rfl
      rw [step, List.flatten_cons, ih _ hd, List.take_append_drop]

/-- Every slicing row except possibly the last has exactly `n` entries. -/
theorem chunkFuel_cols {α : Type} (n : ℕ) (hn : 1 ≤ n) :
    ∀ (fuel : ℕ) (l r : List α), l.length ≤ fuel →
      r ∈ (chunkFuel n fuel l).dropLast → r.length = n := by
  intro fuel
  induction fuel with
  | zero =>
    intro l r hl hr
    have : l = [] := List.length_eq_zero.mp (Nat.le_zero.mp hl)
    subst this
    simp [chunkFuel] at hr
  | succ f ih =>
    intro l r hl hr
    cases l with
    | nil => simp [chunkFuel] at hr
    | cons a t =>
      have step : chunkFuel n (f + 1) (a :: t)
          = (a :: t).take n :: chunkFuel n f ((a :: t).drop n) := rfl
      rw [step] at hr
      cases hrest : chunkFuel n f ((a :: t).drop n) with
      | nil => rw [hrest] at hr; simp at hr
      | cons c cs =>
        rw [hrest, List.dropLast_cons₂] at hr
        rcases List.mem_cons.mp hr with h | h
        · have hd : (a :: t).drop n ≠ [] := by
            intro he
            rw [he] at hrest
            simp [chunkFuel] at hrest
          have hlen : n < (a :: t).length := by
            by_contra hc
            push_neg at hc
            exact hd (List.drop_eq_nil_of_le hc)
          rw [h, List.length_take]
          exact Nat.min_eq_left (Nat.le_of_lt hlen)
        · have hdl : ((a :: t).drop n).length ≤ f := by
            rw [List.length_drop, List.length_cons]
            have hl2 : t.length + 1 ≤ f + 1 := by
              simpa using hl
            omega
          exact ih ((a :: t).drop n) r hdl (by rw [hrest]; exact h)

/-- A cancel failure in the sell-all cancel loop stops the loop right after
the failing order. -/
theorem sellAllCancelLoop_abort (f : String → Option String) :
    ∀ (os₁ : List String) (o e : String) (os₂ : List String),
      (∀ x ∈ os₁, f x = none) → f o = some e →
      sellAllCancelLoop f (os₁ ++ o :: os₂) = (os₁ ++ [o], true) := by
  intro os₁
  induction os₁ with
  | nil =>
    intro o e os₂ _ he
    simp [sellAllCancelLoop, he]
  | cons x rest ih =>
    intro o e os₂ hok he
    have hx : f x = none := hok x (List.mem_cons_self x rest)
    have hrest : ∀ y ∈ rest, f y = none :=
      fun y hy => hok y (List.mem_cons_of_mem x hy)
    simp [sellAllCancelLoop, hx, ih o e os₂ hrest he]

/-- When every cancel succeeds, the sell-all cancel loop attempts every
order and reports no error. -/
theorem sellAllCancelLoop_ok (f : String → Option String) :
    ∀ os : List String, (∀ x ∈ os, f x = none) →
      sellAllCancelLoop f os = (os, false) := by
  intro os
  induction os with
  | nil => intro _; simp [sellAllCancelLoop]
  | cons x rest ih =>
    intro hok
    have hx : f x = none := hok x (List.mem_cons_self x rest)
    have hrest : ∀ y ∈ rest, f y = none :=
      fun y hy => hok y (List.mem_cons_of_mem x hy)
    simp [sellAllCancelLoop, hx, ih hrest]

/-- The sell loop sends an `AddOrder` for exactly the eligible balance
entries, whatever the `AddOrder` outcomes were. -/
theorem sellAllSellLoop_attempted (env : SellAllEnv) :
    ∀ l : List BalanceEntry,
      (sellAllSellLoop env l).1
        = (l.filter (sellEligible env)).map
            (fun b => env.pairs (env.assets b.key)) := by
  intro l
  induction l with
  | nil => simp [sellAllSellLoop]
  | cons b rest ih =>
    by_cases hz : pyStartsWith b.key "Z"
    · simp [sellAllSellLoop, sellEligible, hz, List.filter_cons, ih]
    · by_cases h0 : b.amountStr = "0.0000000000"
      · simp [sellAllSellLoop, sellEligible, hz, h0, List.filter_cons, ih]
      · cases hm : env.limits (env.assets b.key) with
        | none =>
          simp [sellAllSellLoop, sellEligible, hz, h0, hm, List.filter_cons, ih]
        | some m =>
          by_cases hlt : b.amount < m
          · simp [sellAllSellLoop, sellEligible, hz, h0, hm, hlt,
              not_le.mpr hlt, List.filter_cons, ih]
          · cases hao : env.addOrderErr (env.pairs (env.assets b.key)) with
            | none =>
              cases hct : env.check_trade <;>
                simp [sellAllSellLoop, sellEligible, hz, h0, hm, hlt, hao, hct,
                  not_lt.mp hlt, List.filter_cons, ih]
            | some e =>
              simp [sellAllSellLoop, sellEligible, hz, h0, hm, hlt, hao,
                not_lt.mp hlt, List.filter_cons, ih]

/-- A monitor job is removed exactly once over a run: once when some poll in
the run reports a terminal status, never otherwise. -/
theorem runMonitor_removals (se : Bool) :
    ∀ polls : List PollRes,
      ((runMonitor se polls).filter (fun e => e.removed)).length
        = if polls.any isTerminal then 1 else 0 := by
  intro polls
  induction polls with
  | nil => simp [runMonitor]
  | cons r rs ih =>
    by_cases h : isTerminal r = true
    · simp [runMonitor, order_state_check_removed, h, List.any_cons]
    · rw [Bool.not_eq_true] at h
      simp [runMonitor, order_state_check_removed, h, List.any_cons, ih]

/-! ## Claim theorems -/

/-- Claim C1, counterexample: with retry budget `R = 1` and every attempt
raising a retryable `ValueError`, `Kraken.query` performs 3 request
attempts, not the claimed `R + 1 = 2` (the first failure re-issues the
query before the counter starts being decremented). -/
theorem c1_counterexample :
    (query 1 (fun _ => (AttemptResult.exn "ValueError" "boom" : AttemptResult ℕ))).2 = 3
      ∧ (3 : ℕ) ≠ 1 + 1 := by
  constructor
  · decide
  · decide

/-- Claim C1, amended: with every attempt raising a retryable exception,
`Kraken.query` performs exactly 1 attempt when the budget is 0 and exactly
`R + 2` attempts when the budget is `R > 0`, and returns the structured
error built from the last failure's exception type name and message. -/
theorem c1_retry_attempts_amended {α : Type} (R : ℕ)
    (attempt : ℕ → AttemptResult α) (h : ∀ i, retryableExn (attempt i)) :
    query R attempt
      = (.err (exnErr (attempt (if R = 0 then 0 else R + 1))),
         if R = 0 then 1 else R + 2) := by
  obtain ⟨n, m, he, h1, h2⟩ := h 0
  by_cases hR : R = 0
  · subst hR
    simp [query, he, h1, h2, exnErr]
  · have hg := queryGo_all_retryable R hR attempt h R 1
    have harith : 1 + R = R + 1 := by omega
    rw [harith] at hg
    simp [query, he, h1, h2, hR, hg, exnErr]

/-- Claim C1, witness: concrete run of the amended statement at `R = 2`. -/
theorem c1_retry_attempts_witness :
    query 2 (fun _ => (AttemptResult.exn "E" "m" : AttemptResult ℕ))
      = (KrakenRes.err "E:m", 4) := by
  have h := c1_retry_attempts_amended 2
    (fun _ => (AttemptResult.exn "E" "m" : AttemptResult ℕ))
    (fun _ => ⟨"E", "m", rfl, by decide, by decide⟩)
  rw [h]
  decide

/-- Claim C7: a first-attempt failure matching either fatal-immediate
pattern makes `Kraken.query` return a structured error after exactly one
attempt for every retry budget, and with budget 0 any first-attempt failure
returns the structured error after exactly one attempt. -/
theorem c7_fatal_immediate {α : Type} :
    (∀ (R : ℕ) (attempt : ℕ → AttemptResult α) (exName exMsg : String),
        attempt 0 = .exn exName exMsg →
        (strContains exMsg "Incorrect padding" = true
          ∨ strContains exMsg "Service:Unavailable" = true) →
        query R attempt
          = (.err (if strContains exMsg "Incorrect padding" then paddingErrMsg
                   else serviceErrMsg), 1))
  ∧ (∀ (attempt : ℕ → AttemptResult α) (exName exMsg : String),
        attempt 0 = .exn exName exMsg →
        query 0 attempt
          = (.err (if strContains exMsg "Incorrect padding" then paddingErrMsg
                   else if strContains exMsg "Service:Unavailable" then serviceErrMsg
                   else exName ++ ":" ++ exMsg), 1)) := by
  constructor
  · intro R attempt n m he hpat
    by_cases hp : strContains m "Incorrect padding" = true
    · simp [query, he, hp]
    · have hs : strContains m "Service:Unavailable" = true := by
        rcases hpat with hx | hx
        · exact absurd hx hp
        · exact hx
      rw [Bool.not_eq_true] at hp
      simp [query, he, hp, hs]
  · intro attempt n m he
    by_cases hp : strContains m "Incorrect padding" = true
    · simp [query, he, hp]
    · rw [Bool.not_eq_true] at hp
      by_cases hs : strContains m "Service:Unavailable" = true
      · simp [query, he, hp, hs]
      · rw [Bool.not_eq_true] at hs
        simp [query, he, hp, hs]

/-- Claim C7, witness: a service-unavailable failure with budget 5 and an
incorrect-padding failure with budget 0, both resolved in one attempt. -/
theorem c7_fatal_immediate_witness :
    query 5 (fun _ => (AttemptResult.exn "HTTPError" "EService:Unavailable x" : AttemptResult ℕ))
        = (KrakenRes.err serviceErrMsg, 1)
  ∧ query 0 (fun _ => (AttemptResult.exn "BinasciiError" "bad Incorrect padding" : AttemptResult ℕ))
        = (KrakenRes.err paddingErrMsg, 1) := by
  constructor
  · have h := (c7_fatal_immediate (α := ℕ)).1 5
      (fun _ => AttemptResult.exn "HTTPError" "EService:Unavailable x")
      "HTTPError" "EService:Unavailable x" rfl (Or.inr (by decide))
    rw [h]
    decide
  · have h := (c7_fatal_immediate (α := ℕ)).2
      (fun _ => AttemptResult.exn "BinasciiError" "bad Incorrect padding")
      "BinasciiError" "bad Incorrect padding" rfl
    rw [h]
    decide

/-- Claim C5: per tick, the job is removed exactly for the `closed` and
`canceled` statuses and the "trade executed" notification fires exactly for
`closed`; over any run the removal happens at most (and, when a terminal
poll occurs, exactly) once; a tick whose poll is failed or non-terminal
leaves the job polling. -/
theorem c5_monitor_removal (se : Bool) :
    (∀ r : PollRes,
        (order_state_check se r).removed = isTerminal r
          ∧ (order_state_check se r).executedNotified = isClosedStatus r)
  ∧ (∀ polls : List PollRes,
        ((runMonitor se polls).filter (fun e => e.removed)).length
          = if polls.any isTerminal then 1 else 0)
  ∧ (∀ (r : PollRes) (rs : List PollRes), isTerminal r = false →
        runMonitor se (r :: rs) = order_state_check se r :: runMonitor se rs) := by
  refine ⟨fun r => ⟨order_state_check_removed se r, order_state_check_notified se r⟩,
    runMonitor_removals se, ?_⟩
  intro r rs h
  have hr : (order_state_check se r).removed = false := by
    rw [order_state_check_removed se r, h]
  simp [runMonitor, hr]

/-- Claim C5, witness: after a failed poll the job keeps polling. -/
theorem c5_monitor_removal_witness :
    runMonitor true [PollRes.err "boom", PollRes.ok "closed" "d"]
      = order_state_check true (PollRes.err "boom")
          :: runMonitor true [PollRes.ok "closed" "d"] := by
  exact (c5_monitor_removal true).2.2 (PollRes.err "boom")
    [PollRes.ok "closed" "d"] (by decide)

/-- Claim C6: close-all attempts a `CancelOrder` for every cached order
whatever the per-order outcomes, and the closing summary lists exactly the
successfully canceled orders. -/
theorem c6_close_all (orders : List String) (f : String → Option String) :
    (orders_close_all orders f).attempted = orders
  ∧ (orders_close_all orders f).closed
      = orders.filter (fun o => (f o).isNone)
  ∧ (orders_close_all orders f).failedReported
      = orders.filter (fun o => (f o).isSome)
  ∧ ((orders_close_all orders f).closed ≠ [] →
      (orders_close_all orders f).summary
        = .closedList ((orders_close_all orders f).closed))
  ∧ (orders = [] → (orders_close_all orders f).summary = .noOpenOrders) := by
  cases orders with
  | nil => simp [orders_close_all]
  | cons o rest =>
    have hl := closeLoop_spec f (o :: rest)
    cases hc : (o :: rest).filter (fun x => (f x).isNone) with
    | nil =>
      refine ⟨by simp [orders_close_all, hl], by simp [orders_close_all, hl, hc],
        by simp [orders_close_all, hl], ?_,
        fun hx => absurd hx (List.cons_ne_nil o rest)⟩
      intro hne
      have hcl : (orders_close_all (o :: rest) f).closed = [] := by
        simp [orders_close_all, hl, hc]
      exact absurd hcl hne
    | cons c cs =>
      exact ⟨by simp [orders_close_all, hl], by simp [orders_close_all, hl, hc],
        by simp [orders_close_all, hl],
        by intro _; simp [orders_close_all, hl, hc],
        fun hx => absurd hx (List.cons_ne_nil o rest)⟩

/-- Claim C6, witness: two orders, the first failing to cancel; both are
attempted, the failure is reported for the first and the summary lists
exactly the second. -/
theorem c6_close_all_witness :
    (orders_close_all ["O1", "O2"]
        (fun o => if o = "O1" then some "err" else none)).attempted = ["O1", "O2"]
  ∧ (orders_close_all ["O1", "O2"]
        (fun o => if o = "O1" then some "err" else none)).closed = ["O2"]
  ∧ (orders_close_all ["O1", "O2"]
        (fun o => if o = "O1" then some "err" else none)).failedReported = ["O1"] := by
  have h := c6_close_all ["O1", "O2"] (fun o => if o = "O1" then some "err" else none)
  refine ⟨h.1, ?_, ?_⟩
  · rw [h.2.1]
    decide
  · rw [h.2.2.1]
    decide

/-- Claim C8: with a configured minimum `m`, the volume handler stores the
8-digit-rounded volume, returns to volume entry exactly when it is below
`m`, and proceeds to confirmation exactly when it reaches `m`. -/
theorem c8_minimum_check (v : ℚ) (currency : String)
    (limits : String → Option ℚ) (m : ℚ) (hm : limits currency = some m) :
    ((trade_volume v currency limits).next = WorkflowEnum.TRADE_VOLUME
        ↔ round8 v < m)
  ∧ ((trade_volume v currency limits).next = WorkflowEnum.TRADE_CONFIRM
        ↔ m ≤ round8 v)
  ∧ (trade_volume v currency limits).volume = round8 v
  ∧ ((trade_volume v currency limits).lowVolumeMsgSent = true ↔ round8 v < m) := by
  by_cases h : round8 v < m
  · refine ⟨?_, ?_, ?_, ?_⟩ <;> simp [trade_volume, hm, h, not_le]
  · refine ⟨?_, ?_, ?_, ?_⟩ <;> simp [trade_volume, hm, h, not_lt.mp h]

/-- Claim C8, witness: with minimum 1, volume 1/2 is rejected back to the
volume step and volume 3 proceeds to confirmation. -/
theorem c8_minimum_check_witness :
    (trade_volume (1/2) "XBT" (fun _ => some 1)).next = WorkflowEnum.TRADE_VOLUME
  ∧ (trade_volume 3 "XBT" (fun _ => some 1)).next = WorkflowEnum.TRADE_CONFIRM := by
  have h1 := c8_minimum_check (1/2) "XBT" (fun _ => some 1) 1 rfl
  have h2 := c8_minimum_check 3 "XBT" (fun _ => some 1) 1 rfl
  exact ⟨h1.1.mpr (by norm_num [round8, round_eq]),
    h2.2.1.mpr (by norm_num [round8, round_eq])⟩

/-- Claim C4, counterexample: with no configured minimum for the traded
asset, `trade_volume` proceeds straight to the confirmation step and sends
no rejection to the user, instead of aborting the order. -/
theorem c4_counterexample :
    (trade_volume 1 "XBT" (fun _ => none)).next = WorkflowEnum.TRADE_CONFIRM
  ∧ (trade_volume 1 "XBT" (fun _ => none)).lowVolumeMsgSent = false := by
  exact ⟨rfl, rfl⟩

/-- Claim C4, amended: when no minimum order size is configured for the
traded asset, `trade_volume` and `trade_volume_asset` log a warning and
silently proceed to the confirmation step with the resolved volume; no
user-facing rejection is sent and the order is not aborted. -/
theorem c4_unknown_minimum_amended (v amount price : ℚ) (currency : String)
    (limits : String → Option ℚ) (h : limits currency = none) :
    trade_volume v currency limits = ⟨.TRADE_CONFIRM, round8 v, false⟩
  ∧ trade_volume_asset amount price currency limits
      = ⟨.TRADE_CONFIRM, round8 (amount / price), false⟩ := by
  constructor
  · simp [trade_volume, h]
  · simp [trade_volume_asset, h]

/-- Claim C4, witness: concrete run of the amended statement. -/
theorem c4_unknown_minimum_witness :
    trade_volume 2 "ETH" (fun _ => none)
      = ⟨WorkflowEnum.TRADE_CONFIRM, round8 2, false⟩ := by
  exact (c4_unknown_minimum_amended 2 0 1 "ETH" (fun _ => none) rfl).1

/-- Claim C9: in `trade_vol_all` (both sides), the "volume is 0" stop is
taken exactly when the resolved volume formats to `"0.00000000"`, and every
strictly negative resolved volume proceeds to the confirmation step
carrying the negative formatted volume. -/
theorem c9_vol_all_negative (env : VolAllEnv) (hb : env.balanceErr = none)
    (ho : env.ordersErr = none) :
    (pyUpper env.buysell = "BUY" →
        ((trade_vol_all env = .endZero
            ↔ format8 (volAllResolvedBuy env) = "0.00000000")
          ∧ (volAllResolvedBuy env < 0 →
              trade_vol_all env = .confirm (format8 (volAllResolvedBuy env)))))
  ∧ (pyUpper env.buysell = "SELL" →
        ((trade_vol_all env = .endZero
            ↔ format8 (volAllResolvedSell env) = "0.00000000")
          ∧ (volAllResolvedSell env < 0 →
              trade_vol_all env = .confirm (format8 (volAllResolvedSell env))))) := by
  constructor
  · intro hbuy
    have hval : trade_vol_all env
        = (if format8 (volAllResolvedBuy env) = "0.00000000"
           then VolAllOutcome.endZero
           else .confirm (format8 (volAllResolvedBuy env))) := by
      simp [trade_vol_all, hb, ho, hbuy]
    constructor
    · rw [hval]
      by_cases hz : format8 (volAllResolvedBuy env) = "0.00000000" <;> simp [hz]
    · intro hneg
      rw [hval, if_neg (format8_neg_ne _ hneg)]
  · intro hsell
    have hne : ¬ pyUpper env.buysell = "BUY" := by
      rw [hsell]
      decide
    have hval : trade_vol_all env
        = (if format8 (volAllResolvedSell env) = "0.00000000"
           then VolAllOutcome.endZero
           else .confirm (format8 (volAllResolvedSell env))) := by
      simp [trade_vol_all, hb, ho, hsell, hne]
    constructor
    · rw [hval]
      by_cases hz : format8 (volAllResolvedSell env) = "0.00000000" <;> simp [hz]
    · intro hneg
      rw [hval, if_neg (format8_neg_ne _ hneg)]

/-- Claim C9, witness: a sell-side all-available run whose resolved volume
is `-1` goes to confirmation carrying `"-1.00000000"`. -/
theorem c9_vol_all_negative_witness :
    trade_vol_all
      { buysell := "sell", currency := "XBT", price := 10, one := "XXBT",
        two := "ZEUR", assets := [("ZEUR", "EUR")], balanceErr := none,
        balance := fun _ => -1, ordersErr := none, openOrders := [] }
      = VolAllOutcome.confirm "-1.00000000" := by
  have h := (c9_vol_all_negative
      { buysell := "sell", currency := "XBT", price := 10, one := "XXBT",
        two := "ZEUR", assets := [("ZEUR", "EUR")], balanceErr := none,
        balance := fun _ => -1, ordersErr := none, openOrders := [] }
      rfl rfl).2 (by decide)
  have hv : volAllResolvedSell
      { buysell := "sell", currency := "XBT", price := 10, one := "XXBT",
        two := "ZEUR", assets := [("ZEUR", "EUR")], balanceErr := none,
        balance := fun _ => -1, ordersErr := none, openOrders := [] } = -1 := rfl
  have h2 := h.2 (by rw [hv]; norm_num)
  rw [h2, hv, format8_spec (-1 : ℚ) 100000000
      (by rw [abs_of_neg (by norm_num)]; norm_num [round_eq]),
    if_pos (by norm_num : (-1 : ℚ) < 0)]
  decide

/-- Claim C2, counterexample: in the sell-all batch with two open orders
where the first `CancelOrder` fails, the handler returns at once: the
second cancel is never attempted and no sell is attempted even though a
sellable balance entry exists, so the batch is aborted on the first
sub-operation failure. -/
theorem c2_counterexample :
    trade_sell_all_confirm
      { assets := fun _ => "XBT", pairs := fun _ => "XXBTZEUR",
        limits := fun _ => some 1, check_trade := true,
        openOrdersErr := none, openOrders := ["O1", "O2"],
        cancelErr := fun o => if o = "O1" then some "EOrder:Unknown" else none,
        balanceErr := none,
        balance := [⟨"XXBT", "2.0000000000", 2⟩],
        addOrderErr := fun _ => none, addOrderTxid := fun _ => "T1" }
      "YES" []
      = ⟨.apiError, ["O1"], [], [], []⟩
    ∧ (["O1"] : List String) ≠ ["O1", "O2"]
    ∧ SellAllOutcome.apiError ≠ SellAllOutcome.finished := by
  refine ⟨by decide, by decide, by decide⟩

/-- Claim C2, amended: in the sell-all batch an `AddOrder` failure is
reported and iteration continues with the next asset (the set of attempted
sells does not depend on the `AddOrder` outcomes), but a `CancelOrder`
failure aborts the whole batch right after the failing order. -/
theorem c2_sell_all_partial_amended (env : SellAllEnv) (answer : String)
    (scratch : ChatData) :
    (∀ (os₁ : List String) (o e : String) (os₂ : List String),
        ¬ pyUpper answer = "NO" → env.openOrdersErr = none →
        env.openOrders = os₁ ++ o :: os₂ →
        (∀ x ∈ os₁, env.cancelErr x = none) →
        env.cancelErr o = some e →
        trade_sell_all_confirm env answer scratch
          = ⟨.apiError, os₁ ++ [o], [], [], scratch⟩)
  ∧ (¬ pyUpper answer = "NO" → env.openOrdersErr = none →
      (∀ x ∈ env.openOrders, env.cancelErr x = none) →
      env.balanceErr = none →
      trade_sell_all_confirm env answer scratch
        = ⟨.finished, env.openOrders,
            (env.balance.filter (sellEligible env)).map
              (fun b => env.pairs (env.assets b.key)),
            (sellAllSellLoop env env.balance).2, scratch⟩) := by
  constructor
  · intro os₁ o e os₂ hno herr hord hok hfail
    have hc := sellAllCancelLoop_abort env.cancelErr os₁ o e os₂ hok hfail
    simp [trade_sell_all_confirm, hno, herr, hord, hc]
  · intro hno herr hok hbal
    have hc := sellAllCancelLoop_ok env.cancelErr env.openOrders hok
    have hs := sellAllSellLoop_attempted env env.balance
    simp [trade_sell_all_confirm, hno, herr, hbal, hc, hs]

/-- Claim C2, witness: both amended parts at concrete inputs — a middle
cancel failure stops after it, and with all cancels fine every eligible
asset is sold and monitored. -/
theorem c2_sell_all_partial_witness :
    trade_sell_all_confirm
      { assets := fun _ => "XBT", pairs := fun _ => "XXBTZEUR",
        limits := fun _ => some 1, check_trade := true,
        openOrdersErr := none, openOrders := ["O1", "O2", "O3"],
        cancelErr := fun o => if o = "O2" then some "ECancel" else none,
        balanceErr := none, balance := [⟨"XXBT", "2.0000000000", 2⟩],
        addOrderErr := fun _ => none, addOrderTxid := fun _ => "T1" }
      "YES" []
      = ⟨.apiError, ["O1", "O2"], [], [], []⟩
  ∧ trade_sell_all_confirm
      { assets := fun _ => "XBT", pairs := fun _ => "XXBTZEUR",
        limits := fun _ => some 1, check_trade := true,
        openOrdersErr := none, openOrders := ["O1"],
        cancelErr := fun _ => none,
        balanceErr := none, balance := [⟨"XXBT", "2.0000000000", 2⟩],
        addOrderErr := fun _ => none, addOrderTxid := fun _ => "T1" }
      "YES" []
      = ⟨.finished, ["O1"], ["XXBTZEUR"], ["T1"], []⟩ := by
  constructor
  · have h := (c2_sell_all_partial_amended
      { assets := fun _ => "XBT", pairs := fun _ => "XXBTZEUR",
        limits := fun _ => some 1, check_trade := true,
        openOrdersErr := none, openOrders := ["O1", "O2", "O3"],
        cancelErr := fun o => if o = "O2" then some "ECancel" else none,
        balanceErr := none, balance := [⟨"XXBT", "2.0000000000", 2⟩],
        addOrderErr := fun _ => none, addOrderTxid := fun _ => "T1" }
      "YES" []).1 ["O1"] "O2" "ECancel" ["O3"] (by decide) rfl rfl
      (by decide) (by decide)
    exact h.trans (by decide)
  · have h := (c2_sell_all_partial_amended
      { assets := fun _ => "XBT", pairs := fun _ => "XXBTZEUR",
        limits := fun _ => some 1, check_trade := true,
        openOrdersErr := none, openOrders := ["O1"],
        cancelErr := fun _ => none,
        balanceErr := none, balance := [⟨"XXBT", "2.0000000000", 2⟩],
        addOrderErr := fun _ => none, addOrderTxid := fun _ => "T1" }
      "YES" []).2 (by decide) rfl (by decide) rfl
    exact h.trans (by decide)

/-- Claim C3: answering NO at the sell-all confirmation leaves the session
scratch record untouched (`trade_sell_all_confirm` has no `chat_data` and
calls `cancel(bot, update)`, so `clear_chat_data(None)` clears nothing),
although `cancel` does clear the scratch dict whenever it is passed one —
the next workflow starts with the stale `buysell` field. -/
theorem c3_sell_all_no_scratch_kept :
    (trade_sell_all_confirm
        { assets := fun _ => "", pairs := fun _ => "", limits := fun _ => none,
          check_trade := false, openOrdersErr := none, openOrders := [],
          cancelErr := fun _ => none, balanceErr := none, balance := [],
          addOrderErr := fun _ => none, addOrderTxid := fun _ => "" }
        "NO" [("buysell", "sell")]).outcome = SellAllOutcome.canceledNo
  ∧ (trade_sell_all_confirm
        { assets := fun _ => "", pairs := fun _ => "", limits := fun _ => none,
          check_trade := false, openOrdersErr := none, openOrders := [],
          cancelErr := fun _ => none, balanceErr := none, balance := [],
          addOrderErr := fun _ => none, addOrderTxid := fun _ => "" }
        "NO" [("buysell", "sell")]).scratch = [("buysell", "sell")]
  ∧ ([("buysell", "sell")] : ChatData) ≠ []
  ∧ cancel (some [("buysell", "sell")]) = some [] := by
  refine ⟨by decide, by decide, by decide, by decide⟩

/-- Claim C10, counterexample: an empty header list is "given" but Python's
`if header_buttons:` is false for it, so no header row is prepended — the
menu is not the claimed header-then-chunks decomposition. -/
theorem c10_counterexample :
    build_menu [0] 1 (some ([] : List ℕ)) none = [[0]]
  ∧ build_menu [0] 1 (some ([] : List ℕ)) none ≠ [[]] ++ [[0]] := by
  constructor
  · decide
  · decide

/-- Claim C10, amended: for `n_cols ≥ 1` the menu is the concatenation of
the truthy header row (a given non-empty list; an empty one is ignored),
the chunk rows, and the truthy footer row; the chunk rows flatten back to
the button list in order and every chunk row except possibly the last has
exactly `n_cols` entries. -/
theorem c10_build_menu_amended {α : Type} (buttons : List α) (n_cols : ℕ)
    (hn : 1 ≤ n_cols) (header_buttons footer_buttons : Option (List α)) :
    build_menu buttons n_cols header_buttons footer_buttons
        = truthyRow header_buttons ++ chunkRows n_cols buttons
            ++ truthyRow footer_buttons
  ∧ (chunkRows n_cols buttons).flatten = buttons
  ∧ ∀ r ∈ (chunkRows n_cols buttons).dropLast, r.length = n_cols := by
  refine ⟨?_, chunkFuel_flatten n_cols hn buttons.length buttons le_rfl,
    fun r hr => chunkFuel_cols n_cols hn buttons.length buttons r le_rfl hr⟩
  rcases header_buttons with _ | ⟨_ | ⟨h, hs⟩⟩ <;>
    rcases footer_buttons with _ | ⟨_ | ⟨f, fs⟩⟩ <;>
      simp [build_menu, truthyRow]

/-- Claim C10, witness: the amended decomposition at a concrete menu. -/
theorem c10_build_menu_witness :
    build_menu [1, 2, 3] 2 (some [9]) (some [7])
        = truthyRow (some [9]) ++ chunkRows 2 [1, 2, 3] ++ truthyRow (some [7])
  ∧ (chunkRows 2 [1, 2, 3]).flatten = [1, 2, 3] := by
  have h := c10_build_menu_amended [1, 2, 3] 2 (by decide) (some [9]) (some [7])
  exact ⟨h.1, h.2.1⟩

end TelegramKrakenBot
